import Mathlib

/-!
Shallow embedding of the two ThemeManager implementations of the
WMS-Branding repository:

* `MainJS` models the `ThemeManager` class of `src/dev/scripts/main.js`;
* `Part3` models the `ThemeManager` class of `src/unnamed/part_003`.

Browser state touched by the component (the in-memory fields, the
`localStorage` key `williams-theme`, and the `data-theme` attribute on the
document root) is modelled as an explicit record.  `localStorage` is an
`Option String` (the stored value, `none` when the key is absent) together
with an availability flag: an unavailable storage makes `getItem`/`setItem`
throw, which the source catches locally.  Every operation returns the new
state together with the list of observable events it emitted: `themechange`
notifications dispatched on `window` and `console.warn` log lines.
-/

/-- The theme list `['light', 'dark', 'auto']` shared by both variants. -/
def themes : List String := ["light", "dark", "auto"]

/-- JavaScript `v || d` for a nullable string `v`: `null` and the empty
string are falsy and yield the default `d`. -/
def orDefault : Option String → String → String
  | some s, d => if s = "" then d else s
  | none, d => d

/-- The system signal rendered as the string the sources use:
`matches ? 'dark' : 'light'`. -/
def sysStr (b : Bool) : String := if b then "dark" else "light"

/-- Observable events: a `themechange` notification dispatched on `window`
(carrying the preference and the resolved theme) or a `console.warn` line. -/
inductive Evt
  | change (theme actual : String)
  | warn (msg : String)
deriving DecidableEq

/-- Whether an event is a `themechange` notification. -/
def Evt.isChange : Evt → Bool
  | .change _ _ => true
  | .warn _ => false

/-- JavaScript `Array.prototype.indexOf`: first index of `v` in `l`, or
`-1` when absent. -/
def jsIndexOf (l : List String) (v : String) : Int :=
  match l with
  | [] => -1
  | x :: xs =>
      if x = v then 0
      else
        let r := jsIndexOf xs v
        if r = -1 then -1 else r + 1

/-- Raw `localStorage.getItem`: throws when storage is unavailable. -/
def rawGetItem (store : Option String) (ok : Bool) : Except String (Option String) :=
  if ok then .ok store else .error "SecurityError"

/-- Raw `localStorage.setItem`: throws when storage is unavailable. -/
def rawSetItem (_store : Option String) (ok : Bool) (v : String) :
    Except String (Option String) :=
  if ok then .ok (some v) else .error "SecurityError"

namespace MainJS

/-- State of the `ThemeManager` of `src/dev/scripts/main.js`:
`currentTheme` (the in-memory preference), `systemMatches`
(`systemPreference.matches`, the live OS dark signal), the storage cell and
its availability, and the `data-theme` attribute on the document root
(`none` before it was ever set). -/
structure MState where
  currentTheme : String
  systemMatches : Bool
  storage : Option String
  storageOk : Bool
  dataTheme : Option String
deriving DecidableEq

/-- `getStoredTheme`: `localStorage.getItem(key) || 'auto'`, catching a
storage failure by warning and returning `'auto'`. -/
def getStoredTheme (s : MState) : String × List Evt :=
  match rawGetItem s.storage s.storageOk with
  | .ok v => (orDefault v "auto", [])
  | .error _ => ("auto", [.warn "localStorage not available, defaulting to auto theme"])

/-- `storeTheme`: `localStorage.setItem(key, theme)`, catching a storage
failure by warning (the stored value is then unchanged). -/
def storeTheme (s : MState) (theme : String) : MState × List Evt :=
  match rawSetItem s.storage s.storageOk theme with
  | .ok st => ({ s with storage := st }, [])
  | .error _ => (s, [.warn "Could not store theme preference"])

/-- `updateDocumentTheme`: sets the `data-theme` attribute on the document
root (the transition animation and the meta theme-color tag are outside the
modelled state). -/
def updateDocumentTheme (s : MState) (actual : String) : MState :=
  { s with dataTheme := some actual }

/-- `applyTheme`: coerces an invalid theme to `'auto'` with a warning, sets
`currentTheme`, stores it, resolves `'auto'` against
`systemPreference.matches`, writes the document attribute and dispatches a
`themechange` event carrying `{theme, actualTheme}`. -/
def applyTheme (s : MState) (theme : String) : MState × List Evt :=
  let coerced := if theme ∈ themes then theme else "auto"
  let w0 : List Evt := if theme ∈ themes then [] else [.warn "Invalid theme, defaulting to auto"]
  let s1 := { s with currentTheme := coerced }
  let sw := storeTheme s1 coerced
  let actual := if coerced = "auto" then sysStr s.systemMatches else coerced
  let s2 := updateDocumentTheme sw.1 actual
  (s2, w0 ++ sw.2 ++ [.change coerced actual])

/-- `setTheme`: delegates to `applyTheme`. -/
def setTheme (s : MState) (theme : String) : MState × List Evt :=
  applyTheme s theme

/-- `getTheme`: the in-memory preference. -/
def getTheme (s : MState) : String := s.currentTheme

/-- `getActualTheme`: resolves `'auto'` against
`systemPreference.matches`. -/
def getActualTheme (s : MState) : String :=
  if s.currentTheme = "auto" then sysStr s.systemMatches else s.currentTheme

/-- `cycleTheme`: `themes.indexOf(currentTheme)` (which is `-1` when the
current theme is not in the list, and `(-1 + 1) % 3 = 0`), then
`applyTheme(themes[(i + 1) % themes.length])`. -/
def cycleTheme (s : MState) : MState × List Evt :=
  let nextIndex : Nat :=
    ((jsIndexOf themes s.currentTheme + 1) % (themes.length : Int)).toNat
  applyTheme s (themes.getD nextIndex "")

/-- The constructor plus `init` of `src/dev/scripts/main.js`: read the
stored theme (defaulting to `'auto'`), then `applyTheme` it.  The system
change listener it registers is modelled by `systemChange` below. -/
def initTM (store : Option String) (ok : Bool) (sys : Bool) : MState × List Evt :=
  let s0 : MState :=
    { currentTheme := "", systemMatches := sys, storage := store,
      storageOk := ok, dataTheme := none }
  let gv := getStoredTheme s0
  let s1 := { s0 with currentTheme := gv.1 }
  let ap := applyTheme s1 gv.1
  (ap.1, gv.2 ++ ap.2)

/-- The `systemPreference` change listener registered in `init`: the media
query's `matches` flips to the new value, and when the current theme is
`'auto'` the listener calls `updateDocumentTheme` directly — it dispatches
no `themechange` event and touches no storage. -/
def systemChange (s : MState) (m : Bool) : MState × List Evt :=
  let s1 := { s with systemMatches := m }
  if s1.currentTheme = "auto" then (updateDocumentTheme s1 (sysStr m), [])
  else (s1, [])

end MainJS

namespace Part3

/-- State of the `ThemeManager` of `src/unnamed/part_003`: `currentTheme`,
the cached `systemTheme` string (`null` until `detectSystemTheme` has run),
the storage cell and its availability, and the `data-theme` attribute. -/
structure PState where
  currentTheme : String
  systemTheme : Option String
  storage : Option String
  storageOk : Bool
  dataTheme : Option String
deriving DecidableEq

/-- `getStoredTheme`: `localStorage.getItem(key)`, catching a storage
failure by warning and returning `null`. -/
def getStoredTheme (s : PState) : Option String × List Evt :=
  match rawGetItem s.storage s.storageOk with
  | .ok v => (v, [])
  | .error _ => (none, [.warn "Failed to access localStorage"])

/-- `storeTheme`: `localStorage.setItem(key, theme)`, catching a storage
failure by warning. -/
def storeTheme (s : PState) (theme : String) : PState × List Evt :=
  match rawSetItem s.storage s.storageOk theme with
  | .ok st => ({ s with storage := st }, [])
  | .error _ => (s, [.warn "Failed to store theme"])

/-- `applyTheme`: resolves `'auto'` against the cached
`systemTheme || 'light'`, writes `data-theme` (with no validity check on
the argument), updates `currentTheme`, stores the preference and
dispatches the `themechange` event. -/
def applyTheme (s : PState) (theme : String) : PState × List Evt :=
  let actual := if theme = "auto" then s.systemTheme.getD "light" else theme
  let s1 := { s with dataTheme := some actual, currentTheme := theme }
  let sw := storeTheme s1 theme
  (sw.1, sw.2 ++ [.change theme actual])

/-- `cycleTheme`: same `indexOf`-based successor as the main.js variant. -/
def cycleTheme (s : PState) : PState × List Evt :=
  let nextIndex : Nat :=
    ((jsIndexOf themes s.currentTheme + 1) % (themes.length : Int)).toNat
  applyTheme s (themes.getD nextIndex "")

/-- `setTheme`: applies the theme only when it is one of the three enum
members, otherwise logs a warning and does nothing. -/
def setTheme (s : PState) (theme : String) : PState × List Evt :=
  if theme ∈ themes then applyTheme s theme
  else (s, [.warn "Theme is not available"])

/-- `getTheme`: the in-memory preference. -/
def getTheme (s : PState) : String := s.currentTheme

/-- `getAppliedTheme`: resolves `'auto'` against the cached
`systemTheme || 'light'`. -/
def getAppliedTheme (s : PState) : String :=
  if s.currentTheme = "auto" then s.systemTheme.getD "light" else s.currentTheme

/-- `detectSystemTheme`: caches `mediaQuery.matches` as a string. -/
def detectSystemTheme (s : PState) (m : Bool) : PState :=
  { s with systemTheme := some (sysStr m) }

/-- The constructor plus `init` of `src/unnamed/part_003`: read the stored
theme, default missing/empty to `'auto'` via `||`, `applyTheme` it (note:
`systemTheme` is still `null` at that point), then `detectSystemTheme`. -/
def initTM (store : Option String) (ok : Bool) (sys : Bool) : PState × List Evt :=
  let s0 : PState :=
    { currentTheme := "", systemTheme := none, storage := store,
      storageOk := ok, dataTheme := none }
  let gv := getStoredTheme s0
  let cur := orDefault gv.1 "auto"
  let s1 := { s0 with currentTheme := cur }
  let ap := applyTheme s1 cur
  (detectSystemTheme ap.1 sys, gv.2 ++ ap.2)

/-- The media query change listener registered by
`setupSystemThemeListener`: always re-caches `systemTheme`, and when the
current theme is `'auto'` calls `applyTheme('auto', true)` (which
dispatches a `themechange` event). -/
def systemChange (s : PState) (m : Bool) : PState × List Evt :=
  let s1 := { s with systemTheme := some (sysStr m) }
  if s1.currentTheme = "auto" then applyTheme s1 "auto"
  else (s1, [])

end Part3

/-- A user- or environment-triggered operation on a live theme manager,
used to state properties of arbitrary call sequences. -/
inductive Act
  | set (v : String)
  | cycle
  | sysc (b : Bool)

/-- Run one operation on the main.js manager, keeping the state. -/
def MainJS.runAct (s : MainJS.MState) : Act → MainJS.MState
  | .set v => (MainJS.setTheme s v).1
  | .cycle => (MainJS.cycleTheme s).1
  | .sysc b => (MainJS.systemChange s b).1

/-- Run a sequence of operations on the main.js manager. -/
def MainJS.runActs (s : MainJS.MState) : List Act → MainJS.MState
  | [] => s
  | a :: rest => MainJS.runActs (MainJS.runAct s a) rest

/-- Run one operation on the part_003 manager, keeping the state. -/
def Part3.runAct (s : Part3.PState) : Act → Part3.PState
  | .set v => (Part3.setTheme s v).1
  | .cycle => (Part3.cycleTheme s).1
  | .sysc b => (Part3.systemChange s b).1

/-- Run a sequence of operations on the part_003 manager. -/
def Part3.runActs (s : Part3.PState) : List Act → Part3.PState
  | [] => s
  | a :: rest => Part3.runActs (Part3.runAct s a) rest

/-- A main.js manager state with preference `light` stored and applied. -/
def exMain : MainJS.MState :=
  { currentTheme := "light", systemMatches := false, storage := some "light",
    storageOk := true, dataTheme := some "light" }

/-- A main.js manager state with preference `auto`, system light. -/
def exMainAuto : MainJS.MState :=
  { currentTheme := "auto", systemMatches := false, storage := some "auto",
    storageOk := true, dataTheme := some "light" }

/-- A part_003 manager state with preference `auto`, system light. -/
def exPartAuto : Part3.PState :=
  { currentTheme := "auto", systemTheme := some "light", storage := some "auto",
    storageOk := true, dataTheme := some "light" }

/-- A part_003 manager state with preference `light` stored and applied. -/
def exPart : Part3.PState :=
  { currentTheme := "light", systemTheme := some "light", storage := some "light",
    storageOk := true, dataTheme := some "light" }

/-- A main.js manager state with preference `auto`, system dark. -/
def exMainDark : MainJS.MState :=
  { currentTheme := "auto", systemMatches := true, storage := some "auto",
    storageOk := true, dataTheme := some "dark" }

/-- A part_003 manager state with preference `auto`, system dark. -/
def exPartDark : Part3.PState :=
  { currentTheme := "auto", systemTheme := some "dark", storage := some "auto",
    storageOk := true, dataTheme := some "dark" }

/-- A main.js manager state whose storage is unavailable. -/
def exMainNoStore : MainJS.MState :=
  { currentTheme := "light", systemMatches := false, storage := none,
    storageOk := false, dataTheme := some "light" }

/-- A part_003 manager state whose storage is unavailable. -/
def exPartNoStore : Part3.PState :=
  { currentTheme := "light", systemTheme := some "light", storage := none,
    storageOk := false, dataTheme := some "light" }

/-- A main.js manager state with an out-of-enum in-memory preference. -/
def exMainBad : MainJS.MState :=
  { currentTheme := "solarized", systemMatches := false, storage := some "solarized",
    storageOk := true, dataTheme := some "light" }

/-- A part_003 manager state with an out-of-enum in-memory preference. -/
def exPartBad : Part3.PState :=
  { currentTheme := "solarized", systemTheme := some "light", storage := some "solarized",
    storageOk := true, dataTheme := some "solarized" }

/-- A main.js manager state with preference `dark` stored and applied. -/
def exMainDk : MainJS.MState :=
  { currentTheme := "dark", systemMatches := false, storage := some "dark",
    storageOk := true, dataTheme := some "dark" }

/-- A part_003 manager state with preference `dark` stored and applied. -/
def exPartDk : Part3.PState :=
  { currentTheme := "dark", systemTheme := some "light", storage := some "dark",
    storageOk := true, dataTheme := some "dark" }

/-- The fixed cycling order stated by the spec:
light → dark → auto → light. -/
def specNext : String → String
  | "light" => "dark"
  | "dark" => "auto"
  | _ => "light"

/-- The values the presentation-attribute invariant allows. -/
abbrev okTheme (d : Option String) : Prop := d = some "light" ∨ d = some "dark"


/-- C1: for every valid preference P and every system signal S, setting P
(`setTheme`, which both variants route through `applyTheme`) and then
reading the effective theme (`getActualTheme` / `getAppliedTheme`) yields
`dark` exactly when P is `dark`, or P is `auto` and the system prefers
dark — and in every other case yields `light`: the result is stated as the
full two-valued function of (P, S), together with the dark-biconditional.
Proved for both ThemeManager variants. -/
theorem c1_set_then_effective (P : String) (hP : P ∈ themes) (S : Bool)
    (s : MainJS.MState) (hs : s.systemMatches = S)
    (t : Part3.PState) (ht : t.systemTheme = some (sysStr S)) :
    (MainJS.getActualTheme (MainJS.setTheme s P).1
       = if P = "dark" ∨ (P = "auto" ∧ S = true) then "dark" else "light")
    ∧ (MainJS.getActualTheme (MainJS.setTheme s P).1 = "dark"
       ↔ (P = "dark" ∨ (P = "auto" ∧ S = true)))
    ∧ (Part3.getAppliedTheme (Part3.setTheme t P).1
       = if P = "dark" ∨ (P = "auto" ∧ S = true) then "dark" else "light")
    ∧ (Part3.getAppliedTheme (Part3.setTheme t P).1 = "dark"
       ↔ (P = "dark" ∨ (P = "auto" ∧ S = true))) := by
  obtain ⟨ct, sm, st, ok, dt⟩ := s
  obtain ⟨ct2, st2, sg2, ok2, dt2⟩ := t
  simp only [MainJS.MState.systemMatches] at hs
  simp only [Part3.PState.systemTheme] at ht
  subst hs
  simp [themes] at hP
  rcases hP with rfl | rfl | rfl <;> cases sm <;>
    simp_all [MainJS.setTheme, MainJS.applyTheme, MainJS.storeTheme,
      MainJS.updateDocumentTheme, MainJS.getActualTheme, Part3.setTheme,
      Part3.applyTheme, Part3.storeTheme, Part3.getAppliedTheme,
      rawSetItem, themes, sysStr] <;> cases ok <;> cases ok2 <;> simp_all

/-- C1 witness: the theorem instantiated at P = auto, S = dark. -/
theorem c1_set_then_effective_inst :
    ("auto" ∈ themes ∧ exMainDark.systemMatches = true
      ∧ exPartDark.systemTheme = some (sysStr true))
    ∧ ((MainJS.getActualTheme (MainJS.setTheme exMainDark "auto").1
          = if "auto" = "dark" ∨ ("auto" = "auto" ∧ true = true) then "dark" else "light")
        ∧ (MainJS.getActualTheme (MainJS.setTheme exMainDark "auto").1 = "dark"
          ↔ ("auto" = "dark" ∨ ("auto" = "auto" ∧ true = true)))
        ∧ (Part3.getAppliedTheme (Part3.setTheme exPartDark "auto").1
          = if "auto" = "dark" ∨ ("auto" = "auto" ∧ true = true) then "dark" else "light")
        ∧ (Part3.getAppliedTheme (Part3.setTheme exPartDark "auto").1 = "dark"
          ↔ ("auto" = "dark" ∨ ("auto" = "auto" ∧ true = true)))) :=
  ⟨⟨by decide, rfl, rfl⟩,
    c1_set_then_effective "auto" (by decide) true exMainDark rfl exPartDark rfl⟩

/-- C2 counterexample: the claim says an invalid argument leaves the stored
preference unchanged, but in the main.js variant `setTheme("blue")` (which
is `applyTheme`) coerces the argument to `auto` and stores that: from a
state whose stored preference is `light`, the stored value afterwards is
`auto`.  No `InvalidPreferenceError` exists anywhere in the sources; the
invalid argument is only warned about. -/
theorem c2_cex_blue_overwrites_storage :
    (MainJS.setTheme exMain "blue").1.storage = some "auto"
    ∧ exMain.storage = some "light"
    ∧ (MainJS.setTheme exMain "blue").1.currentTheme = "auto"
    ∧ exMain.currentTheme = "light" := by decide

/-- C2 amended: neither variant throws; for an out-of-enum value the
part_003 `setTheme` logs a warning and leaves the entire state (stored and
in-memory preference included) unchanged, while the main.js `setTheme`
coerces the value to `auto`, making `auto` the in-memory preference,
storing it when storage works, and still emitting one change
notification carrying `auto`. -/
theorem c2_amended_invalid_set (v : String) (hv : v ∉ themes)
    (s : MainJS.MState) (t : Part3.PState) :
    Part3.setTheme t v = (t, [Evt.warn "Theme is not available"])
    ∧ (MainJS.setTheme s v).1.currentTheme = "auto"
    ∧ (MainJS.setTheme s v).1.storage
        = (if s.storageOk then some "auto" else s.storage)
    ∧ (MainJS.setTheme s v).2.filter Evt.isChange
        = [Evt.change "auto" (sysStr s.systemMatches)] := by
  obtain ⟨ct, sm, st, ok, dt⟩ := s
  refine ⟨by simp [Part3.setTheme, hv], ?_, ?_, ?_⟩ <;>
    cases ok <;>
      simp [MainJS.setTheme, MainJS.applyTheme, MainJS.storeTheme,
        MainJS.updateDocumentTheme, rawSetItem, hv, Evt.isChange]

/-- C2 amended witness: the amended theorem instantiated at v = blue. -/
theorem c2_amended_invalid_set_inst :
    ("blue" ∉ themes)
    ∧ (Part3.setTheme exPart "blue" = (exPart, [Evt.warn "Theme is not available"])
        ∧ (MainJS.setTheme exMain "blue").1.currentTheme = "auto"
        ∧ (MainJS.setTheme exMain "blue").1.storage
            = (if exMain.storageOk then some "auto" else exMain.storage)
        ∧ (MainJS.setTheme exMain "blue").2.filter Evt.isChange
            = [Evt.change "auto" (sysStr exMain.systemMatches)]) :=
  ⟨by decide, c2_amended_invalid_set "blue" (by decide) exMain exPart⟩

/-- C3 counterexample: the claim says initialization defaults to `auto`
whenever the stored value is not one of the three enum members, but the
part_003 variant only applies `|| 'auto'` to a missing value: with
`"blue"` stored, its init keeps `"blue"` as the in-memory preference (and
even applies it to the document root). -/
theorem c3_cex_invalid_stored_kept :
    (Part3.initTM (some "blue") true false).1.currentTheme = "blue"
    ∧ "blue" ∉ themes
    ∧ (Part3.initTM (some "blue") true false).1.dataTheme = some "blue" := by
  decide

/-- C3 amended: at initialization a missing (or empty, hence falsy) stored
value defaults to `auto` in both variants; an out-of-enum stored value is
coerced to `auto` by the main.js variant (inside `applyTheme`) but kept
as-is by the part_003 variant.  With no stored preference and the system
signal false, the effective theme after init is `light` in both variants
(the JS `init` methods return no value; the computed effective theme is
what `getActualTheme`/`getAppliedTheme` report and what is applied to the
document root). -/
theorem c3_amended_init_defaults (v : String) (hv : v ∉ themes) (hv2 : v ≠ "")
    (sys : Bool) (ok : Bool) :
    (MainJS.initTM none ok sys).1.currentTheme = "auto"
    ∧ (Part3.initTM none ok sys).1.currentTheme = "auto"
    ∧ (MainJS.initTM (some v) true sys).1.currentTheme = "auto"
    ∧ (Part3.initTM (some v) true sys).1.currentTheme = v
    ∧ MainJS.getActualTheme (MainJS.initTM none ok false).1 = "light"
    ∧ (MainJS.initTM none ok false).1.dataTheme = some "light"
    ∧ Part3.getAppliedTheme (Part3.initTM none ok false).1 = "light"
    ∧ (Part3.initTM none ok false).1.dataTheme = some "light" := by
  have hv3 : v ≠ "auto" := by
    intro h; exact hv (by simp [themes, h])
  have hv4 : v ≠ "light" := by
    intro h; exact hv (by simp [themes, h])
  have hv5 : v ≠ "dark" := by
    intro h; exact hv (by simp [themes, h])
  cases ok <;>
    simp [MainJS.initTM, MainJS.getStoredTheme, MainJS.applyTheme,
      MainJS.storeTheme, MainJS.updateDocumentTheme, MainJS.getActualTheme,
      Part3.initTM, Part3.getStoredTheme, Part3.applyTheme, Part3.storeTheme,
      Part3.detectSystemTheme, Part3.getAppliedTheme,
      rawGetItem, rawSetItem, orDefault, themes, sysStr, hv, hv2, hv3, hv4, hv5]

/-- C3 amended witness: the amended theorem instantiated at v = blue. -/
theorem c3_amended_init_defaults_inst :
    ("blue" ∉ themes ∧ "blue" ≠ "")
    ∧ ((MainJS.initTM none true true).1.currentTheme = "auto"
      ∧ (Part3.initTM none true true).1.currentTheme = "auto"
      ∧ (MainJS.initTM (some "blue") true true).1.currentTheme = "auto"
      ∧ (Part3.initTM (some "blue") true true).1.currentTheme = "blue"
      ∧ MainJS.getActualTheme (MainJS.initTM none true false).1 = "light"
      ∧ (MainJS.initTM none true false).1.dataTheme = some "light"
      ∧ Part3.getAppliedTheme (Part3.initTM none true false).1 = "light"
      ∧ (Part3.initTM none true false).1.dataTheme = some "light") :=
  ⟨⟨by decide, by decide⟩, c3_amended_init_defaults "blue" (by decide) (by decide) true true⟩

/-- C4: from any state holding a valid preference, `cycleTheme` advances
the preference along the fixed order light → dark → auto → light and is
extensionally equal to `setTheme` of that successor (state and events
included); consequently three cycles starting from `light` return the
preference to `light`.  Proved for both variants. -/
theorem c4_cycle_order (s : MainJS.MState) (t : Part3.PState)
    (hs : s.currentTheme ∈ themes) (ht : t.currentTheme ∈ themes)
    (s2 : MainJS.MState) (hs2 : s2.currentTheme = "light")
    (t2 : Part3.PState) (ht2 : t2.currentTheme = "light") :
    MainJS.cycleTheme s = MainJS.setTheme s (specNext s.currentTheme)
    ∧ Part3.cycleTheme t = Part3.setTheme t (specNext t.currentTheme)
    ∧ (MainJS.cycleTheme (MainJS.cycleTheme (MainJS.cycleTheme s2).1).1).1.currentTheme
        = "light"
    ∧ (Part3.cycleTheme (Part3.cycleTheme (Part3.cycleTheme t2).1).1).1.currentTheme
        = "light" := by
  obtain ⟨ct, sm, st, ok, dt⟩ := s
  obtain ⟨ct2, st2, sg2, ok2, dt2⟩ := t
  obtain ⟨cta, sma, sta, oka, dta⟩ := s2
  obtain ⟨ctb, stb, sgb, okb, dtb⟩ := t2
  simp only [MainJS.MState.currentTheme, Part3.PState.currentTheme] at hs ht hs2 ht2
  subst hs2; subst ht2
  simp [themes] at hs ht
  refine ⟨?_, ?_, ?_, ?_⟩
  · rcases hs with rfl | rfl | rfl <;> rfl
  · rcases ht with rfl | rfl | rfl <;> rfl
  · cases oka <;>
      simp [MainJS.cycleTheme, MainJS.applyTheme, MainJS.storeTheme,
        MainJS.updateDocumentTheme, rawSetItem, jsIndexOf, themes]
  · cases okb <;>
      simp [Part3.cycleTheme, Part3.applyTheme, Part3.storeTheme,
        rawSetItem, jsIndexOf, themes]

/-- C4 witness: the theorem instantiated at concrete states holding
preference light. -/
theorem c4_cycle_order_inst :
    (exMain.currentTheme ∈ themes ∧ exPart.currentTheme ∈ themes
      ∧ exMain.currentTheme = "light" ∧ exPart.currentTheme = "light")
    ∧ (MainJS.cycleTheme exMain = MainJS.setTheme exMain (specNext exMain.currentTheme)
      ∧ Part3.cycleTheme exPart = Part3.setTheme exPart (specNext exPart.currentTheme)
      ∧ (MainJS.cycleTheme (MainJS.cycleTheme (MainJS.cycleTheme exMain).1).1).1.currentTheme
          = "light"
      ∧ (Part3.cycleTheme (Part3.cycleTheme (Part3.cycleTheme exPart).1).1).1.currentTheme
          = "light") :=
  ⟨⟨by decide, by decide, rfl, rfl⟩,
    c4_cycle_order exMain exPart (by decide) (by decide) exMain rfl exPart rfl⟩

/-- C5 counterexample: the claim says each system-signal change with
preference `auto` emits exactly one change notification, but the main.js
listener only rewrites the document attribute: from an `auto` state it
emits no event at all even though the effective theme flips to dark. -/
theorem c5_cex_mainjs_emits_nothing :
    exMainAuto.currentTheme = "auto"
    ∧ (MainJS.systemChange exMainAuto true).2.filter Evt.isChange = []
    ∧ MainJS.getActualTheme (MainJS.systemChange exMainAuto true).1 = "dark" := by
  decide

/-- C5 amended: with preference `auto`, each system-signal change updates
the signal and reapplies the effective theme in both variants, and the
true-then-false sequence yields effective theme dark then light; but only
the part_003 variant emits exactly one change notification per call — the
main.js listener emits none. -/
theorem c5_amended_system_change (t : Part3.PState) (ht : t.currentTheme = "auto")
    (b : Bool) (s : MainJS.MState) (hs : s.currentTheme = "auto") :
    (Part3.systemChange t b).1.systemTheme = some (sysStr b)
    ∧ (Part3.systemChange t b).2.filter Evt.isChange
        = [Evt.change "auto" (sysStr b)]
    ∧ (Part3.systemChange t b).1.dataTheme = some (sysStr b)
    ∧ Part3.getAppliedTheme (Part3.systemChange t b).1 = sysStr b
    ∧ Part3.getAppliedTheme (Part3.systemChange t true).1 = "dark"
    ∧ Part3.getAppliedTheme
        (Part3.systemChange (Part3.systemChange t true).1 false).1 = "light"
    ∧ ((Part3.systemChange (Part3.systemChange t true).1 false).2.filter
        Evt.isChange).length = 1
    ∧ ((Part3.systemChange t true).2.filter Evt.isChange).length = 1
    ∧ (MainJS.systemChange s b).2 = []
    ∧ (MainJS.systemChange s b).1.dataTheme = some (sysStr b)
    ∧ MainJS.getActualTheme (MainJS.systemChange s b).1 = sysStr b := by
  obtain ⟨ct, sm, st, ok, dt⟩ := s
  obtain ⟨ct2, st2, sg2, ok2, dt2⟩ := t
  simp only [MainJS.MState.currentTheme, Part3.PState.currentTheme] at hs ht
  subst hs; subst ht
  cases b <;> cases ok2 <;>
    simp [MainJS.systemChange, MainJS.updateDocumentTheme, MainJS.getActualTheme,
      Part3.systemChange, Part3.applyTheme, Part3.storeTheme,
      Part3.getAppliedTheme, rawSetItem, sysStr, Evt.isChange]

/-- C5 amended witness: the amended theorem at concrete `auto` states. -/
theorem c5_amended_system_change_inst :
    (exPartAuto.currentTheme = "auto" ∧ exMainAuto.currentTheme = "auto")
    ∧ ((Part3.systemChange exPartAuto true).1.systemTheme = some (sysStr true)
      ∧ (Part3.systemChange exPartAuto true).2.filter Evt.isChange
          = [Evt.change "auto" (sysStr true)]
      ∧ (Part3.systemChange exPartAuto true).1.dataTheme = some (sysStr true)
      ∧ Part3.getAppliedTheme (Part3.systemChange exPartAuto true).1 = sysStr true
      ∧ Part3.getAppliedTheme (Part3.systemChange exPartAuto true).1 = "dark"
      ∧ Part3.getAppliedTheme
          (Part3.systemChange (Part3.systemChange exPartAuto true).1 false).1 = "light"
      ∧ ((Part3.systemChange (Part3.systemChange exPartAuto true).1 false).2.filter
          Evt.isChange).length = 1
      ∧ ((Part3.systemChange exPartAuto true).2.filter Evt.isChange).length = 1
      ∧ (MainJS.systemChange exMainAuto true).2 = []
      ∧ (MainJS.systemChange exMainAuto true).1.dataTheme = some (sysStr true)
      ∧ MainJS.getActualTheme (MainJS.systemChange exMainAuto true).1 = sysStr true) :=
  ⟨⟨rfl, rfl⟩, c5_amended_system_change exPartAuto rfl true exMainAuto rfl⟩

/-- C6: when the current preference is not `auto`, a system-signal change
is observably silent in both variants: no change notification is emitted
and the document attribute, the stored preference and the in-memory
preference are all unchanged. -/
theorem c6_nonauto_silent (s : MainJS.MState) (t : Part3.PState) (b : Bool)
    (hs : s.currentTheme ≠ "auto") (ht : t.currentTheme ≠ "auto") :
    (MainJS.systemChange s b).2 = []
    ∧ (MainJS.systemChange s b).1.dataTheme = s.dataTheme
    ∧ (MainJS.systemChange s b).1.storage = s.storage
    ∧ (MainJS.systemChange s b).1.currentTheme = s.currentTheme
    ∧ (Part3.systemChange t b).2 = []
    ∧ (Part3.systemChange t b).1.dataTheme = t.dataTheme
    ∧ (Part3.systemChange t b).1.storage = t.storage
    ∧ (Part3.systemChange t b).1.currentTheme = t.currentTheme := by
  obtain ⟨ct, sm, st, ok, dt⟩ := s
  obtain ⟨ct2, st2, sg2, ok2, dt2⟩ := t
  simp only [MainJS.MState.currentTheme, Part3.PState.currentTheme] at hs ht
  simp [MainJS.systemChange, Part3.systemChange, hs, ht]

/-- C6 witness: the theorem instantiated with preference dark. -/
theorem c6_nonauto_silent_inst :
    (exMainDk.currentTheme ≠ "auto" ∧ exPartDk.currentTheme ≠ "auto")
    ∧ ((MainJS.systemChange exMainDk true).2 = []
      ∧ (MainJS.systemChange exMainDk true).1.dataTheme = exMainDk.dataTheme
      ∧ (MainJS.systemChange exMainDk true).1.storage = exMainDk.storage
      ∧ (MainJS.systemChange exMainDk true).1.currentTheme = exMainDk.currentTheme
      ∧ (Part3.systemChange exPartDk true).2 = []
      ∧ (Part3.systemChange exPartDk true).1.dataTheme = exPartDk.dataTheme
      ∧ (Part3.systemChange exPartDk true).1.storage = exPartDk.storage
      ∧ (Part3.systemChange exPartDk true).1.currentTheme = exPartDk.currentTheme) :=
  ⟨⟨by decide, by decide⟩, c6_nonauto_silent exMainDk exPartDk true (by decide) (by decide)⟩

/-- C7: with storage unavailable, the raw getItem/setItem fail, but both
variants catch the failure locally, emit a warning log line, treat the read
as "no stored preference" (main.js returns the default `auto` directly;
part_003 returns null, which init defaults to `auto`), leave the stored
value untouched on writes, and still apply the theme to the document root
and return normally — the wrappers are total functions, so no exception
reaches a caller. -/
theorem c7_storage_failure_degrades (s : MainJS.MState) (t : Part3.PState)
    (P : String) (hP : P ∈ themes) (store : Option String) (sys : Bool)
    (hs : s.storageOk = false) (ht : t.storageOk = false) :
    rawGetItem s.storage s.storageOk = .error "SecurityError"
    ∧ rawSetItem s.storage s.storageOk P = .error "SecurityError"
    ∧ MainJS.getStoredTheme s
        = ("auto", [Evt.warn "localStorage not available, defaulting to auto theme"])
    ∧ Part3.getStoredTheme t = (none, [Evt.warn "Failed to access localStorage"])
    ∧ (MainJS.storeTheme s P).1 = s
    ∧ (MainJS.storeTheme s P).2 = [Evt.warn "Could not store theme preference"]
    ∧ (Part3.storeTheme t P).1 = t
    ∧ (Part3.storeTheme t P).2 = [Evt.warn "Failed to store theme"]
    ∧ (MainJS.initTM store false sys).1.currentTheme = "auto"
    ∧ (Part3.initTM store false sys).1.currentTheme = "auto"
    ∧ (MainJS.initTM store false sys).1.dataTheme = some (sysStr sys)
    ∧ (Part3.initTM store false sys).1.dataTheme = some "light"
    ∧ (MainJS.setTheme s P).1.dataTheme
        = some (if P = "auto" then sysStr s.systemMatches else P)
    ∧ (Part3.setTheme t P).1.dataTheme
        = some (if P = "auto" then t.systemTheme.getD "light" else P) := by
  obtain ⟨ct, sm, st, ok, dt⟩ := s
  obtain ⟨ct2, st2, sg2, ok2, dt2⟩ := t
  simp only [MainJS.MState.storageOk, Part3.PState.storageOk] at hs ht
  subst hs; subst ht
  refine ⟨rfl, rfl, rfl, rfl, rfl, rfl, rfl, rfl, ?_, ?_, ?_, ?_, ?_, ?_⟩ <;>
    simp [MainJS.initTM, MainJS.getStoredTheme, MainJS.setTheme, MainJS.applyTheme,
      MainJS.storeTheme, MainJS.updateDocumentTheme, Part3.initTM,
      Part3.getStoredTheme, Part3.setTheme, Part3.applyTheme, Part3.storeTheme,
      Part3.detectSystemTheme, rawGetItem, rawSetItem, orDefault, sysStr, hP]

/-- C7 witness: the theorem at failing-storage states and P = dark. -/
theorem c7_storage_failure_degrades_inst :
    ("dark" ∈ themes ∧ exMainNoStore.storageOk = false ∧ exPartNoStore.storageOk = false)
    ∧ (rawGetItem exMainNoStore.storage exMainNoStore.storageOk = .error "SecurityError"
      ∧ rawSetItem exMainNoStore.storage exMainNoStore.storageOk "dark"
          = .error "SecurityError"
      ∧ MainJS.getStoredTheme exMainNoStore
          = ("auto", [Evt.warn "localStorage not available, defaulting to auto theme"])
      ∧ Part3.getStoredTheme exPartNoStore
          = (none, [Evt.warn "Failed to access localStorage"])
      ∧ (MainJS.storeTheme exMainNoStore "dark").1 = exMainNoStore
      ∧ (MainJS.storeTheme exMainNoStore "dark").2
          = [Evt.warn "Could not store theme preference"]
      ∧ (Part3.storeTheme exPartNoStore "dark").1 = exPartNoStore
      ∧ (Part3.storeTheme exPartNoStore "dark").2 = [Evt.warn "Failed to store theme"]
      ∧ (MainJS.initTM none false false).1.currentTheme = "auto"
      ∧ (Part3.initTM none false false).1.currentTheme = "auto"
      ∧ (MainJS.initTM none false false).1.dataTheme = some (sysStr false)
      ∧ (Part3.initTM none false false).1.dataTheme = some "light"
      ∧ (MainJS.setTheme exMainNoStore "dark").1.dataTheme
          = some (if "dark" = "auto" then sysStr exMainNoStore.systemMatches else "dark")
      ∧ (Part3.setTheme exPartNoStore "dark").1.dataTheme
          = some (if "dark" = "auto" then exPartNoStore.systemTheme.getD "light"
                  else "dark")) :=
  ⟨⟨by decide, rfl, rfl⟩,
    c7_storage_failure_degrades exMainNoStore exPartNoStore "dark" (by decide)
      none false rfl rfl⟩

/-- C10: when the in-memory preference holds a value outside the enum,
`indexOf` returns -1, the successor index is (-1 + 1) % 3 = 0, and one
`cycleTheme` call deterministically sets the preference to `light`;
in general a single cycle from any state at all yields a preference in the
enum.  Proved for both variants. -/
theorem c10_cycle_recovers (s : MainJS.MState) (t : Part3.PState)
    (hs : s.currentTheme ∉ themes) (ht : t.currentTheme ∉ themes)
    (s2 : MainJS.MState) (t2 : Part3.PState) :
    (MainJS.cycleTheme s).1.currentTheme = "light"
    ∧ (Part3.cycleTheme t).1.currentTheme = "light"
    ∧ (MainJS.cycleTheme s2).1.currentTheme ∈ themes
    ∧ (Part3.cycleTheme t2).1.currentTheme ∈ themes := by
  obtain ⟨ct, sm, st, ok, dt⟩ := s
  obtain ⟨ct2, st2, sg2, ok2, dt2⟩ := t
  obtain ⟨cta, sma, sta, oka, dta⟩ := s2
  obtain ⟨ctb, stb, sgb, okb, dtb⟩ := t2
  simp only [MainJS.MState.currentTheme, Part3.PState.currentTheme] at hs ht
  simp [themes] at hs ht
  obtain ⟨h1, h2, h3⟩ := hs
  obtain ⟨h4, h5, h6⟩ := ht
  have e1 : ¬("light" = ct) := fun h => h1 h.symm
  have e2 : ¬("dark" = ct) := fun h => h2 h.symm
  have e3 : ¬("auto" = ct) := fun h => h3 h.symm
  have e4 : ¬("light" = ct2) := fun h => h4 h.symm
  have e5 : ¬("dark" = ct2) := fun h => h5 h.symm
  have e6 : ¬("auto" = ct2) := fun h => h6 h.symm
  refine ⟨?_, ?_, ?_, ?_⟩
  · cases ok <;>
      simp [MainJS.cycleTheme, MainJS.applyTheme, MainJS.storeTheme,
        MainJS.updateDocumentTheme, rawSetItem, jsIndexOf, themes, e1, e2, e3]
  · cases ok2 <;>
      simp [Part3.cycleTheme, Part3.applyTheme, Part3.storeTheme,
        rawSetItem, jsIndexOf, themes, e4, e5, e6]
  · by_cases m1 : "light" = cta
    · cases oka <;>
        simp [MainJS.cycleTheme, MainJS.applyTheme, MainJS.storeTheme,
          MainJS.updateDocumentTheme, rawSetItem, jsIndexOf, themes, m1.symm]
    · by_cases m2 : "dark" = cta
      · cases oka <;>
          simp [MainJS.cycleTheme, MainJS.applyTheme, MainJS.storeTheme,
            MainJS.updateDocumentTheme, rawSetItem, jsIndexOf, themes, m1, m2.symm]
      · by_cases m3 : "auto" = cta
        · cases oka <;>
            simp [MainJS.cycleTheme, MainJS.applyTheme, MainJS.storeTheme,
              MainJS.updateDocumentTheme, rawSetItem, jsIndexOf, themes, m1, m2, m3.symm]
        · cases oka <;>
            simp [MainJS.cycleTheme, MainJS.applyTheme, MainJS.storeTheme,
              MainJS.updateDocumentTheme, rawSetItem, jsIndexOf, themes, m1, m2, m3]
  · by_cases m1 : "light" = ctb
    · cases okb <;>
        simp [Part3.cycleTheme, Part3.applyTheme, Part3.storeTheme,
          rawSetItem, jsIndexOf, themes, m1.symm]
    · by_cases m2 : "dark" = ctb
      · cases okb <;>
          simp [Part3.cycleTheme, Part3.applyTheme, Part3.storeTheme,
            rawSetItem, jsIndexOf, themes, m1, m2.symm]
      · by_cases m3 : "auto" = ctb
        · cases okb <;>
            simp [Part3.cycleTheme, Part3.applyTheme, Part3.storeTheme,
              rawSetItem, jsIndexOf, themes, m1, m2, m3.symm]
        · cases okb <;>
            simp [Part3.cycleTheme, Part3.applyTheme, Part3.storeTheme,
              rawSetItem, jsIndexOf, themes, m1, m2, m3]

/-- C10 witness: the theorem at states holding the out-of-enum preference
`solarized`. -/
theorem c10_cycle_recovers_inst :
    (exMainBad.currentTheme ∉ themes ∧ exPartBad.currentTheme ∉ themes)
    ∧ ((MainJS.cycleTheme exMainBad).1.currentTheme = "light"
      ∧ (Part3.cycleTheme exPartBad).1.currentTheme = "light"
      ∧ (MainJS.cycleTheme exMainBad).1.currentTheme ∈ themes
      ∧ (Part3.cycleTheme exPartBad).1.currentTheme ∈ themes) :=
  ⟨⟨by decide, by decide⟩,
    c10_cycle_recovers exMainBad exPartBad (by decide) (by decide) exMainBad exPartBad⟩

/-- Helper: `jsIndexOf` is at least -1. -/
theorem jsIndexOf_ge (l : List String) (v : String) : -1 ≤ jsIndexOf l v := by
  induction l with
  | nil => simp [jsIndexOf]
  | cons x xs ih =>
      simp only [jsIndexOf]
      by_cases h : x = v
      · simp [h]
      · by_cases h2 : jsIndexOf xs v = -1
        · simp [h, h2]
        · simp [h, h2]
          omega

/-- Helper: the successor index computed by `cycleTheme` is in bounds. -/
theorem cycleIdx_lt (cur : String) :
    ((jsIndexOf themes cur + 1) % (themes.length : Int)).toNat < themes.length := by
  have h1 := jsIndexOf_ge themes cur
  have hl : (themes.length : Int) = 3 := by simp [themes]
  rw [hl]
  have h3 : (jsIndexOf themes cur + 1) % 3 < 3 :=
    Int.emod_lt_of_pos _ (by norm_num)
  have h4 : (0:Int) ≤ (jsIndexOf themes cur + 1) % 3 :=
    Int.emod_nonneg _ (by norm_num)
  simp only [themes, List.length_cons, List.length_nil]
  omega

/-- Helper: indexing into the theme list stays inside it. -/
theorem themes_getD_mem (n : Nat) (h : n < themes.length) :
    themes.getD n "" ∈ themes := by
  simp only [themes, List.length_cons, List.length_nil] at h
  interval_cases n <;> decide

/-- Helper: the main.js `applyTheme` always writes `light` or `dark` to the
document attribute, for any argument whatsoever. -/
theorem main_applyTheme_ok (s : MainJS.MState) (th : String) :
    okTheme (MainJS.applyTheme s th).1.dataTheme := by
  obtain ⟨ct, sm, st, ok, dt⟩ := s
  by_cases h : th ∈ themes
  · simp [themes] at h
    rcases h with rfl | rfl | rfl <;> cases sm <;> cases ok <;>
      simp [MainJS.applyTheme, MainJS.storeTheme, MainJS.updateDocumentTheme,
        rawSetItem, sysStr, okTheme, themes]
  · have h2 : ¬(th = "light" ∨ th = "dark" ∨ th = "auto") := by
      simpa [themes] using h
    cases sm <;> cases ok <;>
      simp [MainJS.applyTheme, MainJS.storeTheme, MainJS.updateDocumentTheme,
        rawSetItem, sysStr, okTheme, themes, h2]

/-- Helper: the part_003 `applyTheme` writes `light` or `dark` provided
its argument is a valid theme and the cached system theme is null, light
or dark. -/
theorem part3_applyTheme_ok (t : Part3.PState) (th : String) (hth : th ∈ themes)
    (hts : t.systemTheme = none ∨ t.systemTheme = some "light"
      ∨ t.systemTheme = some "dark") :
    okTheme (Part3.applyTheme t th).1.dataTheme := by
  obtain ⟨ct, st2, sg, ok, dt⟩ := t
  simp only [Part3.PState.systemTheme] at hts
  simp [themes] at hth
  rcases hth with rfl | rfl | rfl <;> rcases hts with rfl | rfl | rfl <;> cases ok <;>
    simp [Part3.applyTheme, Part3.storeTheme, rawSetItem, okTheme]

/-- Helper: the part_003 `cycleTheme` keeps the document attribute at
`light` or `dark` under the same system-theme condition. -/
theorem part3_cycle_ok (t : Part3.PState)
    (hts : t.systemTheme = none ∨ t.systemTheme = some "light"
      ∨ t.systemTheme = some "dark") :
    okTheme (Part3.cycleTheme t).1.dataTheme :=
  part3_applyTheme_ok t _ (themes_getD_mem _ (cycleIdx_lt t.currentTheme)) hts

/-- Helper: the main.js system-change listener preserves the invariant. -/
theorem main_systemChange_ok (s : MainJS.MState) (b : Bool)
    (h : okTheme s.dataTheme) :
    okTheme (MainJS.systemChange s b).1.dataTheme := by
  obtain ⟨ct, sm, st, ok, dt⟩ := s
  by_cases hc : ct = "auto" <;> cases b <;>
    simp_all [MainJS.systemChange, MainJS.updateDocumentTheme, sysStr, okTheme]

/-- Helper: the part_003 system-change listener preserves the invariant. -/
theorem part3_systemChange_ok (t : Part3.PState) (b : Bool)
    (h : okTheme t.dataTheme) :
    okTheme (Part3.systemChange t b).1.dataTheme := by
  obtain ⟨ct, st2, sg, ok, dt⟩ := t
  by_cases hc : ct = "auto"
  · subst hc
    cases b <;> cases ok <;>
      simp [Part3.systemChange, Part3.applyTheme, Part3.storeTheme,
        rawSetItem, sysStr, okTheme]
  · simp_all [Part3.systemChange, hc, okTheme]

/-- Helper: main.js init establishes the invariant from any storage. -/
theorem main_init_ok (store : Option String) (ok sys : Bool) :
    okTheme (MainJS.initTM store ok sys).1.dataTheme :=
  main_applyTheme_ok _ _

/-- Helper: part_003 init establishes the invariant when the stored value
resolves (via the falsy default) to a valid theme. -/
theorem part3_init_ok (store : Option String) (ok sys : Bool)
    (h : orDefault store "auto" ∈ themes) :
    okTheme (Part3.initTM store ok sys).1.dataTheme := by
  cases store with
  | none =>
      cases ok <;>
        simp [Part3.initTM, Part3.getStoredTheme, Part3.applyTheme, Part3.storeTheme,
          Part3.detectSystemTheme, rawGetItem, rawSetItem, orDefault, okTheme]
  | some x =>
      by_cases hx : x = ""
      · subst hx
        cases ok <;>
          simp [Part3.initTM, Part3.getStoredTheme, Part3.applyTheme, Part3.storeTheme,
            Part3.detectSystemTheme, rawGetItem, rawSetItem, orDefault, okTheme]
      · rw [orDefault] at h
        rw [if_neg hx] at h
        simp [themes] at h
        rcases h with rfl | rfl | rfl <;> cases ok <;>
          simp [Part3.initTM, Part3.getStoredTheme, Part3.applyTheme, Part3.storeTheme,
            Part3.detectSystemTheme, rawGetItem, rawSetItem, orDefault, okTheme, themes]

/-- C8 counterexample: the claim says the presentation attribute always
holds `light` or `dark` after every operation, but part_003's init applies
a raw invalid stored value: with `"blue"` stored, its init leaves
`data-theme="blue"`. -/
theorem c8_cex_raw_value_applied :
    (Part3.initTM (some "blue") true false).1.dataTheme = some "blue"
    ∧ ¬("blue" = "light" ∨ "blue" = "dark") := by decide

/-- C8 amended: in the main.js variant the invariant holds as claimed —
after init, setTheme and cycleTheme the document attribute is `light` or
`dark` for any input and any state, and the system-change listener
preserves this; the effective theme is a pure function of the
(preference, system signal) pair in both variants.  In the part_003
variant the invariant holds for init only when the stored value is
missing, empty or a valid theme (otherwise the raw string is applied,
see the counterexample), and for the other operations whenever the cached
system theme is null, light or dark — which its own updates maintain. -/
theorem c8_amended_attribute_invariant (store : Option String)
    (ok sys pok psys b : Bool) (s s' : MainJS.MState) (v v2 : String)
    (hv2 : v2 ∈ themes) (hsd : okTheme s'.dataTheme)
    (p q : MainJS.MState) (hct : p.currentTheme = q.currentTheme)
    (hsm : p.systemMatches = q.systemMatches)
    (p2 q2 : Part3.PState) (hct2 : p2.currentTheme = q2.currentTheme)
    (hst2 : p2.systemTheme = q2.systemTheme)
    (pst : Option String) (hpst : orDefault pst "auto" ∈ themes)
    (t : Part3.PState)
    (hts : t.systemTheme = none ∨ t.systemTheme = some "light"
      ∨ t.systemTheme = some "dark")
    (htd : okTheme t.dataTheme) :
    okTheme (MainJS.initTM store ok sys).1.dataTheme
    ∧ okTheme (MainJS.setTheme s v).1.dataTheme
    ∧ okTheme (MainJS.cycleTheme s).1.dataTheme
    ∧ okTheme (MainJS.systemChange s' b).1.dataTheme
    ∧ MainJS.getActualTheme p = MainJS.getActualTheme q
    ∧ Part3.getAppliedTheme p2 = Part3.getAppliedTheme q2
    ∧ okTheme (Part3.initTM pst pok psys).1.dataTheme
    ∧ okTheme (Part3.setTheme t v2).1.dataTheme
    ∧ okTheme (Part3.cycleTheme t).1.dataTheme
    ∧ okTheme (Part3.systemChange t b).1.dataTheme := by
  refine ⟨main_init_ok store ok sys, main_applyTheme_ok s v, main_applyTheme_ok s _,
    main_systemChange_ok s' b hsd, ?_, ?_, part3_init_ok pst pok psys hpst,
    ?_, part3_cycle_ok t hts, part3_systemChange_ok t b htd⟩
  · simp [MainJS.getActualTheme, hct, hsm]
  · simp [Part3.getAppliedTheme, hct2, hst2]
  · rw [Part3.setTheme, if_pos hv2]
    exact part3_applyTheme_ok t v2 hv2 hts

/-- C8 amended witness: the amended theorem at concrete inputs (stored
value light, setting dark, system signal dark). -/
theorem c8_amended_attribute_invariant_inst :
    ("dark" ∈ themes ∧ okTheme exMainDk.dataTheme
      ∧ exMain.currentTheme = exMain.currentTheme
      ∧ exMain.systemMatches = exMain.systemMatches
      ∧ exPart.currentTheme = exPart.currentTheme
      ∧ exPart.systemTheme = exPart.systemTheme
      ∧ orDefault (some "light") "auto" ∈ themes
      ∧ (exPart.systemTheme = none ∨ exPart.systemTheme = some "light"
        ∨ exPart.systemTheme = some "dark")
      ∧ okTheme exPart.dataTheme)
    ∧ (okTheme (MainJS.initTM (some "light") true true).1.dataTheme
      ∧ okTheme (MainJS.setTheme exMain "blue").1.dataTheme
      ∧ okTheme (MainJS.cycleTheme exMain).1.dataTheme
      ∧ okTheme (MainJS.systemChange exMainDk true).1.dataTheme
      ∧ MainJS.getActualTheme exMain = MainJS.getActualTheme exMain
      ∧ Part3.getAppliedTheme exPart = Part3.getAppliedTheme exPart
      ∧ okTheme (Part3.initTM (some "light") true true).1.dataTheme
      ∧ okTheme (Part3.setTheme exPart "dark").1.dataTheme
      ∧ okTheme (Part3.cycleTheme exPart).1.dataTheme
      ∧ okTheme (Part3.systemChange exPart true).1.dataTheme) :=
  ⟨⟨by decide, by decide, rfl, rfl, rfl, rfl, by decide, by decide, by decide⟩,
    c8_amended_attribute_invariant (some "light") true true true true true
      exMain exMainDk "blue" "dark" (by decide) (by decide)
      exMain exMain rfl rfl exPart exPart rfl rfl
      (some "light") (by decide) exPart (by decide) (by decide)⟩

/-- Helper: main.js `applyTheme` either overwrites the storage key or
leaves it untouched (when storage is unavailable). -/
theorem main_applyTheme_storage (s : MainJS.MState) (th : String) :
    (MainJS.applyTheme s th).1.storage
      = if s.storageOk then some (if th ∈ themes then th else "auto")
        else s.storage := by
  obtain ⟨ct, sm, st, ok, dt⟩ := s
  by_cases h : th ∈ themes <;> cases ok <;>
    simp [MainJS.applyTheme, MainJS.storeTheme, MainJS.updateDocumentTheme,
      rawSetItem, h]

/-- Helper: part_003 `applyTheme` either overwrites the storage key or
leaves it untouched. -/
theorem part3_applyTheme_storage (t : Part3.PState) (th : String) :
    (Part3.applyTheme t th).1.storage
      = if t.storageOk then some th else t.storage := by
  obtain ⟨ct, st2, sg, ok, dt⟩ := t
  cases ok <;> simp [Part3.applyTheme, Part3.storeTheme, rawSetItem]

/-- Helper: the main.js system-change listener never touches storage. -/
theorem main_systemChange_storage (s : MainJS.MState) (b : Bool) :
    (MainJS.systemChange s b).1.storage = s.storage := by
  obtain ⟨ct, sm, st, ok, dt⟩ := s
  by_cases h : ct = "auto" <;>
    simp [MainJS.systemChange, MainJS.updateDocumentTheme, h]

/-- Helper: a single main.js operation never removes the storage key. -/
theorem main_runAct_some (s : MainJS.MState) (a : Act)
    (h : s.storage.isSome) : (MainJS.runAct s a).storage.isSome := by
  cases a with
  | set v =>
      show ((MainJS.applyTheme s v).1.storage).isSome
      rw [main_applyTheme_storage]
      split <;> simp_all
  | cycle =>
      show ((MainJS.applyTheme s _).1.storage).isSome
      rw [main_applyTheme_storage]
      split <;> simp_all
  | sysc b =>
      show ((MainJS.systemChange s b).1.storage).isSome
      rw [main_systemChange_storage]
      exact h

/-- Helper: a single part_003 operation never removes the storage key. -/
theorem part3_runAct_some (t : Part3.PState) (a : Act)
    (h : t.storage.isSome) : (Part3.runAct t a).storage.isSome := by
  cases a with
  | set v =>
      show ((Part3.setTheme t v).1.storage).isSome
      rw [Part3.setTheme]
      split
      · rw [part3_applyTheme_storage]; split <;> simp_all
      · exact h
  | cycle =>
      show ((Part3.applyTheme t _).1.storage).isSome
      rw [part3_applyTheme_storage]
      split <;> simp_all
  | sysc b =>
      show ((Part3.systemChange t b).1.storage).isSome
      rw [Part3.systemChange]
      split
      · rw [part3_applyTheme_storage]; split <;> simp_all
      · exact h

/-- Helper: no main.js operation sequence ever removes the storage key. -/
theorem main_runActs_some (acts : List Act) (s : MainJS.MState)
    (h : s.storage.isSome) : (MainJS.runActs s acts).storage.isSome := by
  induction acts generalizing s with
  | nil => simpa [MainJS.runActs] using h
  | cons a rest ih => exact ih _ (main_runAct_some s a h)

/-- Helper: no part_003 operation sequence ever removes the storage key. -/
theorem part3_runActs_some (acts : List Act) (t : Part3.PState)
    (h : t.storage.isSome) : (Part3.runActs t acts).storage.isSome := by
  induction acts generalizing t with
  | nil => simpa [Part3.runActs] using h
  | cons a rest ih => exact ih _ (part3_runAct_some t a h)

/-- C9: with working storage, init writes the resolved preference back to
the storage key in both variants (an idempotent overwrite when the stored
value is already equal), and across any sequence of setTheme, cycleTheme
and system-change operations from any state where the key exists, the key
still exists afterwards — no operation ever deletes it (neither variant
calls removeItem anywhere). -/
theorem c9_storage_written_never_deleted (store : Option String) (sys : Bool)
    (s : MainJS.MState) (t : Part3.PState) (acts : List Act)
    (hs : s.storage.isSome) (ht : t.storage.isSome) :
    (MainJS.initTM store true sys).1.storage
        = some ((MainJS.initTM store true sys).1.currentTheme)
    ∧ (Part3.initTM store true sys).1.storage
        = some ((Part3.initTM store true sys).1.currentTheme)
    ∧ ((MainJS.runActs s acts).storage).isSome
    ∧ ((Part3.runActs t acts).storage).isSome := by
  refine ⟨?_, ?_, main_runActs_some acts s hs, part3_runActs_some acts t ht⟩
  · cases store with
    | none =>
        simp [MainJS.initTM, MainJS.getStoredTheme, MainJS.applyTheme,
          MainJS.storeTheme, MainJS.updateDocumentTheme, rawGetItem, rawSetItem,
          orDefault, themes]
    | some x =>
        by_cases hx : x = ""
        · subst hx
          simp [MainJS.initTM, MainJS.getStoredTheme, MainJS.applyTheme,
            MainJS.storeTheme, MainJS.updateDocumentTheme, rawGetItem, rawSetItem,
            orDefault, themes]
        · by_cases hm : x ∈ themes <;>
            simp [MainJS.initTM, MainJS.getStoredTheme, MainJS.applyTheme,
              MainJS.storeTheme, MainJS.updateDocumentTheme, rawGetItem, rawSetItem,
              orDefault, hx, hm]
  · cases store with
    | none =>
        simp [Part3.initTM, Part3.getStoredTheme, Part3.applyTheme,
          Part3.storeTheme, Part3.detectSystemTheme, rawGetItem, rawSetItem,
          orDefault]
    | some x =>
        by_cases hx : x = "" <;>
          simp [Part3.initTM, Part3.getStoredTheme, Part3.applyTheme,
            Part3.storeTheme, Part3.detectSystemTheme, rawGetItem, rawSetItem,
            orDefault, hx]

/-- C9 witness: the theorem at a stored dark preference and a concrete
operation sequence. -/
theorem c9_storage_written_never_deleted_inst :
    (exMain.storage.isSome ∧ exPart.storage.isSome)
    ∧ ((MainJS.initTM (some "dark") true false).1.storage
          = some ((MainJS.initTM (some "dark") true false).1.currentTheme)
      ∧ (Part3.initTM (some "dark") true false).1.storage
          = some ((Part3.initTM (some "dark") true false).1.currentTheme)
      ∧ ((MainJS.runActs exMain [Act.set "dark", Act.cycle, Act.sysc true]).storage).isSome
      ∧ ((Part3.runActs exPart [Act.set "dark", Act.cycle, Act.sysc true]).storage).isSome) :=
  ⟨⟨by decide, by decide⟩,
    c9_storage_written_never_deleted (some "dark") false exMain exPart
      [Act.set "dark", Act.cycle, Act.sysc true] (by decide) (by decide)⟩
